import Mathlib

/-!
Shallow embedding of the open-enum wire codec in
src/model/src/application/command/command_type.rs of the twilight repository.
Wire codes are u8 values, modelled as Fin 256.
-/

/-- The open enum CommandType from command_type.rs: three known variants
(ChatInput, User, Message) and a fallback variant Unknown carrying the raw
u8 wire code verbatim. -/
inductive CommandType : Type where
  | ChatInput : CommandType
  | User : CommandType
  | Message : CommandType
  | Unknown : Fin 256 → CommandType
deriving DecidableEq, Repr

/-- Embedding of the decode direction, impl From u8 for CommandType:
codes 1, 2, 3 map to the known variants, every other code to the fallback
variant carrying the code unchanged. -/
def CommandType.fromU8 (value : Fin 256) : CommandType :=
  if value = 1 then CommandType.ChatInput
  else if value = 2 then CommandType.User
  else if value = 3 then CommandType.Message
  else CommandType.Unknown value

/-- Embedding of the encode direction, impl From CommandType for u8:
each known variant maps to its defined code, the fallback variant to the
code it carries. -/
def CommandType.toU8 : CommandType → Fin 256
  | CommandType.ChatInput => 1
  | CommandType.User => 2
  | CommandType.Message => 3
  | CommandType.Unknown unknown => unknown

/-- Embedding of CommandType::kind: the diagnostic label of each variant. -/
def CommandType.kind : CommandType → String
  | CommandType.ChatInput => "ChatInput"
  | CommandType.User => "User"
  | CommandType.Message => "Message"
  | CommandType.Unknown _ => "Unknown interaction type"

/-- Claim C1: for every u8 code c, encoding the result of decoding c returns
c unchanged. -/
theorem fromU8_toU8_round_trip (c : Fin 256) :
    CommandType.toU8 (CommandType.fromU8 c) = c := by
  unfold CommandType.fromU8
  split_ifs with h1 h2 h3
  · rw [h1]; rfl
  · rw [h2]; rfl
  · rw [h3]; rfl
  · rfl

/-- Claim C4: each known variant decodes from and encodes to its defined
code: ChatInput with 1, User with 2, Message with 3. -/
theorem known_variant_codes :
    CommandType.fromU8 1 = CommandType.ChatInput ∧
    CommandType.toU8 CommandType.ChatInput = 1 ∧
    CommandType.fromU8 2 = CommandType.User ∧
    CommandType.toU8 CommandType.User = 2 ∧
    CommandType.fromU8 3 = CommandType.Message ∧
    CommandType.toU8 CommandType.Message = 3 := by
  decide

/-- Claim C5: every u8 code outside the known set 1, 2, 3 (including 0)
decodes to the fallback variant carrying it verbatim, and that fallback
encodes back to the same code. -/
theorem unknown_code_fallback (u : Fin 256)
    (h : u ≠ 1 ∧ u ≠ 2 ∧ u ≠ 3) :
    CommandType.fromU8 u = CommandType.Unknown u ∧
    CommandType.toU8 (CommandType.Unknown u) = u := by
  refine ⟨?_, rfl⟩
  unfold CommandType.fromU8
  simp only [if_neg h.1, if_neg h.2.1, if_neg h.2.2]

/-- Witness for C5 at the concrete code 99. -/
theorem unknown_code_fallback_witness :
    CommandType.fromU8 99 = CommandType.Unknown 99 ∧
    CommandType.toU8 (CommandType.Unknown 99) = 99 :=
  unknown_code_fallback 99 (by decide)

/-- Claim C6: decoding is total with no failure path: every u8 input yields
one of the variants, and an input outside the known codes yields the
fallback carrying it rather than an error. -/
theorem fromU8_total (u : Fin 256) :
    CommandType.fromU8 u = CommandType.ChatInput ∨
    CommandType.fromU8 u = CommandType.User ∨
    CommandType.fromU8 u = CommandType.Message ∨
    CommandType.fromU8 u = CommandType.Unknown u := by
  unfold CommandType.fromU8
  split
  · exact Or.inl rfl
  · split
    · exact Or.inr (Or.inl rfl)
    · split
      · exact Or.inr (Or.inr (Or.inl rfl))
      · exact Or.inr (Or.inr (Or.inr rfl))

/-- Claim C7: equality on CommandType is structural: two fallback values are
equal exactly when their carried codes are equal, and a fallback value is
never equal to any known variant. -/
theorem eq_structural (a b : Fin 256) :
    (CommandType.Unknown a = CommandType.Unknown b ↔ a = b) ∧
    CommandType.Unknown a ≠ CommandType.ChatInput ∧
    CommandType.Unknown a ≠ CommandType.User ∧
    CommandType.Unknown a ≠ CommandType.Message := by
  refine ⟨⟨fun h => ?_, fun h => by rw [h]⟩, ?_, ?_, ?_⟩
  · cases h; rfl
  all_goals intro h; cases h

/-- Claim C8: kind is total and follows the label contract: the three known
variants have fixed, non-empty, pairwise distinct labels, and every fallback
value yields one fixed non-empty label independent of its carried code. -/
theorem kind_labels :
    (CommandType.kind CommandType.ChatInput ≠ "" ∧
     CommandType.kind CommandType.User ≠ "" ∧
     CommandType.kind CommandType.Message ≠ "") ∧
    (CommandType.kind CommandType.ChatInput ≠ CommandType.kind CommandType.User ∧
     CommandType.kind CommandType.ChatInput ≠ CommandType.kind CommandType.Message ∧
     CommandType.kind CommandType.User ≠ CommandType.kind CommandType.Message) ∧
    (∀ a b : Fin 256,
      CommandType.kind (CommandType.Unknown a) = CommandType.kind (CommandType.Unknown b)) ∧
    (∀ a : Fin 256, CommandType.kind (CommandType.Unknown a) ≠ "") := by
  refine ⟨by decide, by decide, fun a b => rfl, fun a => ?_⟩
  simp only [CommandType.kind]
  decide

/-- Counterexample for C2: the directly constructed fallback value Unknown 1
does not survive the encode-decode round trip, because its wire code 1 decodes
to the known variant ChatInput. -/
theorem round_trip_fails_on_unknown_one :
    CommandType.fromU8 (CommandType.toU8 (CommandType.Unknown 1)) ≠
      CommandType.Unknown 1 := by
  decide

/-- Amended claim C2: decoding the encoding of v returns v for every value v
whose fallback payload, if any, lies outside the known codes 1, 2, 3; a
directly constructed Unknown carrying a known code is excluded. -/
theorem toU8_fromU8_round_trip (v : CommandType)
    (h : ∀ u : Fin 256, v = CommandType.Unknown u → u ≠ 1 ∧ u ≠ 2 ∧ u ≠ 3) :
    CommandType.fromU8 (CommandType.toU8 v) = v := by
  cases v with
  | ChatInput => rfl
  | User => rfl
  | Message => rfl
  | Unknown u =>
      obtain ⟨h1, h2, h3⟩ := h u rfl
      show CommandType.fromU8 u = CommandType.Unknown u
      unfold CommandType.fromU8
      simp only [if_neg h1, if_neg h2, if_neg h3]

/-- Witness for the amended C2 at the concrete value Unknown 7. -/
theorem toU8_fromU8_round_trip_witness :
    CommandType.fromU8 (CommandType.toU8 (CommandType.Unknown 7)) =
      CommandType.Unknown 7 :=
  toU8_fromU8_round_trip (CommandType.Unknown 7)
    (fun u h => by injection h with h7; subst h7; decide)

/-- Counterexample for C3: not every CommandType value keeps known codes out
of the fallback: the constructible value Unknown 1 carries the code 1 of the
known variant ChatInput. -/
theorem unknown_can_carry_known_code :
    ¬ (∀ v : CommandType, ∀ u : Fin 256,
        v = CommandType.Unknown u → u ≠ 1 ∧ u ≠ 2 ∧ u ≠ 3) := by
  intro h
  exact (h (CommandType.Unknown 1) 1 rfl).1 rfl

/-- Amended claim C3: the decoder maintains the invariant: decoding a code c
yields a fallback value Unknown u exactly when u is c itself and c lies
outside the known set 1, 2, 3; the decoder never builds a fallback carrying
a known code. -/
theorem fromU8_fallback_iff (c u : Fin 256) :
    CommandType.fromU8 c = CommandType.Unknown u ↔
      (u = c ∧ c ≠ 1 ∧ c ≠ 2 ∧ c ≠ 3) := by
  unfold CommandType.fromU8
  split_ifs with h1 h2 h3 <;>
    simp_all [eq_comm, CommandType.Unknown.injEq]

/-- Claim C9: restricted round trip actually provided by the code: every
value that is a known variant, or a fallback whose payload is outside the
known codes, survives decode after encode. -/
theorem restricted_round_trip (v : CommandType)
    (h : v = CommandType.ChatInput ∨ v = CommandType.User ∨
         v = CommandType.Message ∨
         ∃ u : Fin 256, v = CommandType.Unknown u ∧ u ≠ 1 ∧ u ≠ 2 ∧ u ≠ 3) :
    CommandType.fromU8 (CommandType.toU8 v) = v := by
  rcases h with h | h | h | ⟨u, rfl, h1, h2, h3⟩
  · rw [h]; rfl
  · rw [h]; rfl
  · rw [h]; rfl
  · show CommandType.fromU8 u = CommandType.Unknown u
    unfold CommandType.fromU8
    simp only [if_neg h1, if_neg h2, if_neg h3]

/-- Witness for C9 at the concrete value Unknown 200. -/
theorem restricted_round_trip_witness :
    CommandType.fromU8 (CommandType.toU8 (CommandType.Unknown 200)) =
      CommandType.Unknown 200 :=
  restricted_round_trip (CommandType.Unknown 200)
    (Or.inr (Or.inr (Or.inr ⟨200, rfl, by decide, by decide, by decide⟩)))

/-- Claim C10: encoding is not injective: a directly constructed fallback
carrying a known code encodes to the same wire byte as the corresponding
known variant, while the two values are unequal. -/
theorem toU8_not_injective :
    CommandType.toU8 (CommandType.Unknown 1) = CommandType.toU8 CommandType.ChatInput ∧
    CommandType.toU8 CommandType.ChatInput = 1 ∧
    CommandType.Unknown 1 ≠ CommandType.ChatInput ∧
    CommandType.toU8 (CommandType.Unknown 2) = CommandType.toU8 CommandType.User ∧
    CommandType.toU8 CommandType.User = 2 ∧
    CommandType.Unknown 2 ≠ CommandType.User ∧
    CommandType.toU8 (CommandType.Unknown 3) = CommandType.toU8 CommandType.Message ∧
    CommandType.toU8 CommandType.Message = 3 ∧
    CommandType.Unknown 3 ≠ CommandType.Message := by
  decide
